import Mathlib

/-!
Verification development for the wgpu n-body playground.

The Rust sources under `src/` are shallowly embedded here:

* `f32` values are modelled as exact rationals (`F32 := ℚ`); float literals in
  the source become the corresponding rational literals, and `std::f32::consts::TAU`
  becomes the exact rational value of the `f32` constant.
* Calls into `rand::thread_rng` are modelled by an oracle stream of rationals
  (`Rng`): each `gen_range`/`gen_bool` call consumes one oracle value.  None of
  the verified properties depend on the drawn values.
* Transcendental `f32` functions (`sin`, `cos`, `sqrt`, `powf`), the colour
  helper `hsl_to_rgb` (which lives in `crate::utils::color`, outside `src/`) and
  `glam::Mat4::look_at_rh` are modelled as components of an abstract `RealOps`
  bundle; again no verified property depends on their values.
* Rust panics / wgpu validation failures (out-of-bounds indexing, writes past a
  buffer's end) are modelled by `Option`, with `none` meaning the operation
  fails.
* GPU-side state (pipelines, encoders, the contents the compute kernel writes)
  is outside the host-visible state modelled here; buffer objects are modelled
  by the host data last written into them.
-/

namespace WgpuPlayground

/-- `f32` scalars, modelled as exact rationals. -/
abbrev F32 := ℚ

/-- A `[f32; 4]` array. -/
abbrev Vec4 := F32 × F32 × F32 × F32

/-- A `[f32; 3]` array. -/
abbrev Vec3 := F32 × F32 × F32

/-- A `[f32; 2]` array. -/
abbrev Vec2 := F32 × F32

/-- Oracle stream of random draws standing in for `rand::thread_rng()`. -/
def Rng := Nat → F32

/-- One random draw: the head of the stream plus the advanced stream. -/
def Rng.next (r : Rng) : F32 × Rng := (r 0, fun n => r (n + 1))

/-- Abstract model of the `f32` transcendental functions, of
`utils::color::hsl_to_rgb` and of `glam::Mat4::look_at_rh`.  The properties
verified in this file do not depend on their values. -/
structure RealOps where
  cos : F32 → F32
  sin : F32 → F32
  sqrt : F32 → F32
  powf : F32 → F32 → F32
  hsl_to_rgb : F32 → F32 → F32 → Vec3
  look_at_rh : Vec3 → Vec3 → Vec3 → List F32

/-- The `f32` value of `std::f32::consts::TAU` (used by the solar-system
angle computation and as the wrap modulus of `Camera::rotate`). -/
def TAU : F32 := 13176795 / 2097152

/-! ## `src/simulation/types.rs` -/

/-- `const NUM_BODIES: u32 = 2` (`src/simulation/types.rs`). -/
def NUM_BODIES : Nat := 2

/-- `const COMPUTE_WORKGROUP_SIZE: u32 = 64` (`src/simulation/types.rs`). -/
def COMPUTE_WORKGROUP_SIZE : Nat := 64

/-- `struct Body` (`src/simulation/types.rs`): position.w is the mass,
velocity.w the visual radius, color an rgba quadruple. -/
structure Body where
  position : Vec4
  velocity : Vec4
  color : Vec4
deriving DecidableEq, Repr

/-- The "null" body: zero mass, zero visual radius, transparent colour.
This is the padding value produced by `EarthMoonSimulation::create_empty_bodies`. -/
def nullBody : Body :=
  { position := (0, 0, 0, 0), velocity := (0, 0, 0, 0), color := (0, 0, 0, 0) }

/-- `struct SimulationState` uniform block.  The revision embedded here is the
one used by `src/rendering/renderer.rs` and `src/simulation/manager.rs`, which
carries the view and projection matrices next to the delta time (the matrices
are modelled as opaque lists of scalars). -/
structure SimulationState where
  delta_time : F32
  view_matrix : List F32
  projection_matrix : List F32
deriving DecidableEq, Repr

/-- `struct DebugData` (`src/simulation/types.rs`). -/
structure DebugData where
  iterations : Nat
  particle_info : Vec4
deriving DecidableEq, Repr

/-! ## Scenario providers

`trait Simulation` (`src/simulation/trait_def.rs`).  `initialize_bodies`
receives the oracle stream modelling the fresh `thread_rng()` of the call. -/

structure Simulation where
  name : String
  description : String
  initialize_bodies : Nat → Rng → List Body
  camera_position : Vec3
  camera_target : Vec3

/-! ### `src/simulation/galaxy.rs` -/

namespace GalaxySimulation

/-- The central high-mass "sun" body pushed first by
`GalaxySimulation::initialize_bodies`. -/
def centralBody : Body :=
  { position := (0, 0, 0, 5000), velocity := (0, 0, 0, 0), color := (1, 0.9, 0.1, 1) }

/-- One disc body of the `for _ in 1..count` loop, built from the four random
draws of the iteration (`distance`, `angle`, `y`, `mass` draws). -/
def discBody (ops : RealOps) (d0 d1 d2 d3 : F32) : Body :=
  let distance := 20 + 50 * ops.powf d0 0.5
  let angle := d1
  let x := distance * ops.cos angle
  let z := distance * ops.sin angle
  let y := (d2 - 0.5) * 5
  let speed := min (5 / ops.sqrt distance) 1
  let vx := -speed * ops.sin angle
  let vz := speed * ops.cos angle
  let mass := 0.1 + d3 * 2
  let hue := distance / 100
  let rgb := ops.hsl_to_rgb hue 0.8 0.6
  { position := (x, y, z, mass),
    velocity := (vx, 0, vz, 0),
    color := (rgb.1, rgb.2.1, rgb.2.2, 1) }

/-- The disc bodies produced by `n` iterations of the loop, threading the
random stream through the iterations. -/
def discBodies (ops : RealOps) : Nat → Rng → List Body
  | 0, _ => []
  | n + 1, rng =>
    let (d0, rng) := rng.next
    let (d1, rng) := rng.next
    let (d2, rng) := rng.next
    let (d3, rng) := rng.next
    discBody ops d0 d1 d2 d3 :: discBodies ops n rng

/-- `GalaxySimulation::initialize_bodies`: push the central body, then run the
loop `for _ in 1..count` (which performs `count - 1` iterations, and none at
all when `count = 0`). -/
def initialize_bodies (ops : RealOps) (count : Nat) (rng : Rng) : List Body :=
  centralBody :: discBodies ops (count - 1) rng

/-- `GalaxySimulation` packaged as a `Simulation` trait object. -/
def sim (ops : RealOps) : Simulation :=
  { name := "Galaxy",
    description := "A spiral galaxy simulation with a central star and orbiting bodies",
    initialize_bodies := fun count rng => initialize_bodies ops count rng,
    camera_position := (0, 20, 200),
    camera_target := (0, 0, 0) }

end GalaxySimulation

/-! ### `src/simulation/solar_system.rs` -/

namespace SolarSystemSimulation

/-- The per-planet data array `planets`: distance (AU), orbital period,
mass (Earth masses), radius (Earth radii), colour. -/
def planets : List (F32 × F32 × F32 × F32 × Vec4) :=
  [ (0.39, 0.24, 0.055, 0.38, (0.8, 0.8, 0.8, 1)),
    (0.72, 0.62, 0.815, 0.95, (0.9, 0.7, 0.4, 1)),
    (1.0, 1.0, 1.0, 1.0, (0.2, 0.4, 0.8, 1)),
    (1.52, 1.88, 0.107, 0.53, (0.8, 0.3, 0.2, 1)),
    (5.2, 11.86, 317.8, 11.2, (0.9, 0.75, 0.6, 1)),
    (9.58, 29.46, 95.2, 9.45, (0.9, 0.8, 0.5, 1)),
    (19.18, 84.01, 14.5, 4.0, (0.5, 0.8, 0.9, 1)),
    (30.07, 164.8, 17.1, 3.88, (0.2, 0.4, 0.9, 1)),
    (39.48, 248.59, 0.002, 0.18, (0.7, 0.7, 0.7, 1)) ]

/-- `distance_scale` from the source. -/
def distance_scale : F32 := 10

/-- `size_scale` from the source. -/
def size_scale : F32 := 20

/-- The Sun body pushed first. -/
def sunBody : Body :=
  { position := (0, 0, 0, 333000), velocity := (0, 0, 0, 30), color := (1, 0.9, 0.1, 1) }

/-- The orbital-inclination table of the `match i` expression, in degrees. -/
def inclinationDeg : Nat → F32
  | 0 => 7.0
  | 1 => 3.4
  | 2 => 0.0
  | 3 => 1.9
  | 4 => 1.3
  | 5 => 2.5
  | 6 => 0.8
  | 7 => 1.8
  | 8 => 17.2
  | _ => 0.0

/-- The `f32` value of `std::f32::consts::PI`. -/
def PI : F32 := 13176795 / 4194304

/-- The planet body built for index `i` of the `planets` array. -/
def planetBody (ops : RealOps) (i : Nat) (p : F32 × F32 × F32 × F32 × Vec4) : Body :=
  let distance := p.1
  let period := p.2.1
  let mass := p.2.2.1
  let radius := p.2.2.2.1
  let color := p.2.2.2.2
  let distance_scaled := distance * distance_scale
  let angle := TAU * ((i : F32) / (planets.length : F32))
  let x := distance_scaled * ops.cos angle
  let z := distance_scaled * ops.sin angle
  let inclination_rad := inclinationDeg i * PI / 180
  let y := distance_scaled * ops.sin angle * ops.sin inclination_rad
  let speed := ops.sqrt (2 * PI * distance_scaled / period)
  let vx := -speed * ops.sin angle
  let vz := speed * ops.cos angle
  let visual_radius := radius * size_scale
  { position := (x, y, z, mass),
    velocity := (vx, 0, vz, visual_radius),
    color := color }

/-- One asteroid / debris body of the filling loop, consuming its random
draws in source order: `is_kuiper`, `distance`, `angle`, `inclination`,
`mass`, `visual_radius` and three colour draws. -/
def asteroidBody (ops : RealOps) (rng : Rng) : Body × Rng :=
  let (b, rng) := rng.next
  let is_kuiper := b < 0.3
  let (dd, rng) := rng.next
  let distance := if is_kuiper then (30 + dd) * distance_scale else (2.2 + dd) * distance_scale
  let (angle, rng) := rng.next
  let (di, rng) := rng.next
  let inclination := di * PI / 180
  let (dm, rng) := rng.next
  let (dv, rng) := rng.next
  let (c0, rng) := rng.next
  let (c1, rng) := rng.next
  let (c2, rng) := rng.next
  let x := distance * ops.cos angle
  let z := distance * ops.sin angle
  let y := distance * ops.sin angle * ops.sin inclination
  let period := ops.powf distance 1.5
  let speed := min (1 * distance_scale / ops.sqrt period) 0.5
  let vx := -speed * ops.sin angle
  let vz := speed * ops.cos angle
  let color : Vec4 :=
    if is_kuiper then (0.6 + c0, 0.6 + c1, 0.7 + c2, 1) else (0.5 + c0, 0.4 + c1, 0.3 + c2, 1)
  ({ position := (x, y, z, dm),
     velocity := (vx, 0, vz, dv),
     color := color }, rng)

/-- `n` iterations of the asteroid-filling loop. -/
def asteroidBodies (ops : RealOps) : Nat → Rng → List Body
  | 0, _ => []
  | n + 1, rng =>
    let (b, rng) := asteroidBody ops rng
    b :: asteroidBodies ops n rng

/-- The ten fixed bodies (Sun + eight planets + Pluto) pushed unconditionally. -/
def coreBodies (ops : RealOps) : List Body :=
  sunBody :: (planets.enum.map fun ip => planetBody ops ip.1 ip.2)

/-- `SolarSystemSimulation::initialize_bodies`: the ten fixed bodies, extended
with random asteroids only when `count` exceeds ten (`if count > bodies.len()`). -/
def initialize_bodies (ops : RealOps) (count : Nat) (rng : Rng) : List Body :=
  let bodies := coreBodies ops
  if bodies.length < count then bodies ++ asteroidBodies ops (count - bodies.length) rng
  else bodies

/-- `SolarSystemSimulation` packaged as a `Simulation` trait object. -/
def sim (ops : RealOps) : Simulation :=
  { name := "Solar System",
    description := "An accurate simulation of our solar system with correct masses and distances",
    initialize_bodies := fun count rng => initialize_bodies ops count rng,
    camera_position := (0, 100, 200),
    camera_target := (0, 0, 0) }

end SolarSystemSimulation

/-! ### `src/simulation/earth_moon.rs`

In the checked-in revision the Earth and Moon constructors are commented out:
only the Sun is pushed, and the remaining slots are filled with null bodies. -/

namespace EarthMoonSimulation

/-- `SIZE_SCALE` from the source. -/
def SIZE_SCALE : F32 := 0.5

/-- `EarthMoonSimulation::create_sun`. -/
def create_sun : Body :=
  { position := (0, 0, 0, 333000),
    velocity := (0, 0, 0, 109 * SIZE_SCALE * 0.7),
    color := (1, 0.9, 0.1, 1) }

/-- `EarthMoonSimulation::create_empty_bodies`: `count` copies of the
zero-mass, zero-radius, transparent body. -/
def create_empty_bodies (count : Nat) : List Body :=
  List.replicate count nullBody

/-- `EarthMoonSimulation::initialize_bodies`: push the Sun, then pad with
empty bodies only when `count` exceeds the bodies already pushed. -/
def initialize_bodies (count : Nat) : List Body :=
  let bodies := [create_sun]
  if bodies.length < count then bodies ++ create_empty_bodies (count - bodies.length)
  else bodies

/-- `EarthMoonSimulation` packaged as a `Simulation` trait object. -/
def sim : Simulation :=
  { name := "Earth-Moon System",
    description := "Accurate 2D simulation of the Sun, Earth, and Moon with correct masses, distances, and velocities",
    initialize_bodies := fun count _ => initialize_bodies count,
    camera_position := (0, 300, 20),
    camera_target := (0, 0, 0) }

end EarthMoonSimulation

/-! ## `src/rendering/camera.rs` -/

/-- `f32::clamp(self, lo, hi)`: `lo` if below, `hi` if above, else `self`. -/
def clampF (x lo hi : F32) : F32 :=
  if x < lo then lo else if hi < x then hi else x

/-- The loop `while self.rotation > TAU { self.rotation -= TAU; }`. -/
def wrapDown (r : F32) : F32 :=
  if _h : TAU < r then wrapDown (r - TAU) else r
termination_by (⌈r / TAU⌉).toNat
decreasing_by
  have hT : (0 : F32) < TAU := by norm_num [TAU]
  have h1 : (r - TAU) / TAU = r / TAU - 1 := by
    rw [sub_div, div_self (ne_of_gt hT)]
  have h2 : (1 : F32) < r / TAU := (one_lt_div hT).mpr _h
  have h3 : (1 : ℤ) < ⌈r / TAU⌉ := Int.lt_ceil.mpr (by exact_mod_cast h2)
  rw [h1, Int.ceil_sub_one]
  omega

/-- The loop `while self.rotation < 0.0 { self.rotation += TAU; }`. -/
def wrapUp (r : F32) : F32 :=
  if _h : r < 0 then wrapUp (r + TAU) else r
termination_by (⌈-r / TAU⌉).toNat
decreasing_by
  have hT : (0 : F32) < TAU := by norm_num [TAU]
  have h1 : -(r + TAU) / TAU = -r / TAU - 1 := by
    have h0 : -(r + TAU) = -r - TAU := by ring
    rw [h0, sub_div, div_self (ne_of_gt hT)]
  have h2 : (0 : F32) < -r / TAU := div_pos (by linarith) hT
  have h3 : (0 : ℤ) < ⌈-r / TAU⌉ := Int.ceil_pos.mpr h2
  rw [h1, Int.ceil_sub_one]
  omega

/-- `struct Camera` (`src/rendering/camera.rs`). -/
structure Camera where
  offset : Vec2
  zoom : F32
  rotation : F32
  base_height : F32
  mouse_pressed : Bool
  last_mouse_position : Vec2
  ctrl_pressed : Bool
  shift_pressed : Bool
deriving DecidableEq, Repr

namespace Camera

/-- `Camera::new`. -/
def new (base_height : F32) : Camera :=
  { offset := (0, 0),
    zoom := 1,
    rotation := 0,
    base_height := base_height,
    mouse_pressed := false,
    last_mouse_position := (0, 0),
    ctrl_pressed := false,
    shift_pressed := false }

/-- `Camera::pan`: pan speed scales inversely with zoom; the pan vector is
rotated by the current rotation. -/
def pan (ops : RealOps) (c : Camera) (delta_x delta_y : F32) : Camera :=
  let pan_speed := 1 / c.zoom
  let sin_rot := ops.sin c.rotation
  let cos_rot := ops.cos c.rotation
  { c with offset :=
      (c.offset.1 + (delta_x * cos_rot - delta_y * sin_rot) * pan_speed,
       c.offset.2 + (delta_x * sin_rot + delta_y * cos_rot) * pan_speed) }

/-- `Camera::zoom` (named `zoomBy` here because the structure field is already
called `zoom`): multiplicative update `zoom * (1 + delta * zoom_speed)` with
`zoom_speed = 0.1`, then clamp to `[0.1, 10.0]`. -/
def zoomBy (c : Camera) (delta : F32) : Camera :=
  { c with zoom := clampF (c.zoom * (1 + delta * 0.1)) 0.1 10 }

/-- `Camera::rotate`: additive update scaled by `0.01`, then the two wrap
loops. -/
def rotate (c : Camera) (delta : F32) : Camera :=
  { c with rotation := wrapUp (wrapDown (c.rotation + delta * 0.01)) }

/-- `Camera::handle_mouse_press`. -/
def handle_mouse_press (c : Camera) (position : Vec2) (ctrl shift : Bool) : Camera :=
  { c with mouse_pressed := true,
           last_mouse_position := position,
           ctrl_pressed := ctrl,
           shift_pressed := shift }

/-- `Camera::handle_mouse_release`. -/
def handle_mouse_release (c : Camera) : Camera :=
  { c with mouse_pressed := false }

/-- `Camera::handle_mouse_move`: returns the updated camera and whether the
view changed. -/
def handle_mouse_move (ops : RealOps) (c : Camera) (position : Vec2) : Camera × Bool :=
  if c.mouse_pressed then
    let delta_x := position.1 - c.last_mouse_position.1
    let delta_y := position.2 - c.last_mouse_position.2
    if c.ctrl_pressed then
      ({ pan ops c delta_x delta_y with last_mouse_position := position }, true)
    else if c.shift_pressed then
      ({ rotate c delta_x with last_mouse_position := position }, true)
    else (c, false)
  else (c, false)

/-- `Camera::handle_mouse_wheel`. -/
def handle_mouse_wheel (c : Camera) (delta : F32) : Camera :=
  zoomBy c delta

/-- `Camera::handle_key_state`. -/
def handle_key_state (c : Camera) (ctrl shift : Bool) : Camera :=
  { c with ctrl_pressed := ctrl, shift_pressed := shift }

end Camera

/-- The camera states reachable through the public entry points of
`src/rendering/camera.rs` (construction / reset included as `new`). -/
inductive CameraReachable : Camera → Prop
  | new (base_height : F32) : CameraReachable (Camera.new base_height)
  | pan (ops : RealOps) (c : Camera) (dx dy : F32) :
      CameraReachable c → CameraReachable (Camera.pan ops c dx dy)
  | zoomBy (c : Camera) (delta : F32) :
      CameraReachable c → CameraReachable (Camera.zoomBy c delta)
  | rotate (c : Camera) (delta : F32) :
      CameraReachable c → CameraReachable (Camera.rotate c delta)
  | press (c : Camera) (position : Vec2) (ctrl shift : Bool) :
      CameraReachable c → CameraReachable (Camera.handle_mouse_press c position ctrl shift)
  | release (c : Camera) :
      CameraReachable c → CameraReachable (Camera.handle_mouse_release c)
  | move (ops : RealOps) (c : Camera) (position : Vec2) :
      CameraReachable c → CameraReachable (Camera.handle_mouse_move ops c position).1
  | wheel (c : Camera) (delta : F32) :
      CameraReachable c → CameraReachable (Camera.handle_mouse_wheel c delta)
  | key (c : Camera) (ctrl shift : Bool) :
      CameraReachable c → CameraReachable (Camera.handle_key_state c ctrl shift)

/-! ## `src/simulation/manager.rs`

The mutating operations may index `self.simulations`; an out-of-bounds index
is a Rust panic, modelled by `Option.none`.  Each operation that calls
`initialize_bodies` receives the oracle stream of the fresh `thread_rng()`. -/

structure SimulationManager where
  simulations : List Simulation
  current_simulation_index : Nat
  bodies : List Body

namespace SimulationManager

/-- `SimulationManager::new`: the available simulations are just
`[SolarSystemSimulation]`, and the bodies are initialised from the first one
with `NUM_BODIES`. -/
def new (ops : RealOps) (rng : Rng) : SimulationManager :=
  { simulations := [SolarSystemSimulation.sim ops],
    current_simulation_index := 0,
    bodies := (SolarSystemSimulation.sim ops).initialize_bodies NUM_BODIES rng }

/-- `SimulationManager::get_current_simulation` (panics when the index is out
of bounds, hence `Option`). -/
def get_current_simulation (m : SimulationManager) : Option Simulation :=
  m.simulations.get? m.current_simulation_index

/-- `SimulationManager::get_simulation_count`. -/
def get_simulation_count (m : SimulationManager) : Nat :=
  m.simulations.length

/-- `SimulationManager::get_bodies`: a copy of the locked body vector. -/
def get_bodies (m : SimulationManager) : List Body :=
  m.bodies

/-- `SimulationManager::reinitialize_bodies`: replace the held bodies with
`simulations[current].initialize_bodies(NUM_BODIES)`. -/
def reinitialize_bodies (m : SimulationManager) (rng : Rng) : Option SimulationManager :=
  (m.simulations.get? m.current_simulation_index).map fun s =>
    { m with bodies := s.initialize_bodies NUM_BODIES rng }

/-- `SimulationManager::next_simulation`.  The guard is
`current < simulations.len() - 1`; when the simulation list is empty the
`usize` subtraction `len() - 1` itself underflows (a panic in debug builds),
modelled by `none`. -/
def next_simulation (m : SimulationManager) (rng : Rng) :
    Option (SimulationManager × Bool) :=
  if m.simulations.length = 0 then none
  else if m.current_simulation_index < m.simulations.length - 1 then
    (reinitialize_bodies
      { m with current_simulation_index := m.current_simulation_index + 1 } rng).map
      fun m2 => (m2, true)
  else some (m, false)

/-- `SimulationManager::previous_simulation`. -/
def previous_simulation (m : SimulationManager) (rng : Rng) :
    Option (SimulationManager × Bool) :=
  if 0 < m.current_simulation_index then
    (reinitialize_bodies
      { m with current_simulation_index := m.current_simulation_index - 1 } rng).map
      fun m2 => (m2, true)
  else some (m, false)

/-- `SimulationManager::switch_to_simulation`. -/
def switch_to_simulation (m : SimulationManager) (index : Nat) (rng : Rng) :
    Option (SimulationManager × Bool) :=
  if index < m.simulations.length then
    (reinitialize_bodies { m with current_simulation_index := index } rng).map
      fun m2 => (m2, true)
  else some (m, false)

/-- `SimulationManager::update_simulation_state`: overwrite the view matrix
from the current simulation's camera position and target (indexes
`simulations[current]`, hence `Option`). -/
def update_simulation_state (ops : RealOps) (m : SimulationManager)
    (state : SimulationState) : Option SimulationState :=
  (m.simulations.get? m.current_simulation_index).map fun s =>
    { state with view_matrix := ops.look_at_rh s.camera_position s.camera_target (0, 1, 0) }

end SimulationManager

/-- The `SimulationManager` states reachable from `SimulationManager::new`
through its public mutating operations. -/
inductive ManagerReachable (ops : RealOps) : SimulationManager → Prop
  | new (rng : Rng) : ManagerReachable ops (SimulationManager.new ops rng)
  | next (m m2 : SimulationManager) (b : Bool) (rng : Rng) :
      ManagerReachable ops m →
      SimulationManager.next_simulation m rng = some (m2, b) →
      ManagerReachable ops m2
  | previous (m m2 : SimulationManager) (b : Bool) (rng : Rng) :
      ManagerReachable ops m →
      SimulationManager.previous_simulation m rng = some (m2, b) →
      ManagerReachable ops m2
  | switch (m m2 : SimulationManager) (i : Nat) (b : Bool) (rng : Rng) :
      ManagerReachable ops m →
      SimulationManager.switch_to_simulation m i rng = some (m2, b) →
      ManagerReachable ops m2

/-! ## `src/simulation/resources.rs`

The two GPU body buffers are modelled by the host data last written into them;
`queue.write_buffer` at offset 0 overwrites a prefix of the destination, and
fails wgpu validation (modelled by `none`) when the data is larger than the
buffer. -/

/-- `queue.write_buffer(buffer, 0, data)`: overwrite the front of `buffer`
with `data`; a write past the end of the buffer is a wgpu validation error. -/
def writeBufferFront (buffer data : List Body) : Option (List Body) :=
  if data.length ≤ buffer.length then some (data ++ buffer.drop data.length) else none

structure SimulationResources where
  /-- The two ping-pong body buffers, index 0 and index 1. -/
  body_buffers : List (List Body)
  simulation_state_buffer : SimulationState
  debug_buffer : DebugData
  /-- Bind group `i` reads buffer `i` and writes buffer `1 - i`
  (`RenderConfig::create_bind_groups`); modelled by the (read, write) pair. -/
  bind_groups : List (Nat × Nat)
  current_buffer : Nat

namespace SimulationResources

/-- `SimulationResources::new`: both ping-pong buffers are initialised from
the manager's bodies, the debug buffer is zeroed, and `current_buffer = 0`. -/
def new (bodies : List Body) (simulation_state : SimulationState) : SimulationResources :=
  { body_buffers := [bodies, bodies],
    simulation_state_buffer := simulation_state,
    debug_buffer := { iterations := 0, particle_info := (0, 0, 0, 0) },
    bind_groups := [(0, 1), (1, 0)],
    current_buffer := 0 }

/-- `SimulationResources::update_bodies`: write the given bodies into the
buffer at `current_buffer`.  Note the source performs no length validation at
all: the slice is handed straight to `queue.write_buffer`. -/
def update_bodies (r : SimulationResources) (bodies : List Body) :
    Option SimulationResources :=
  match r.body_buffers.get? r.current_buffer with
  | none => none
  | some buf =>
    (writeBufferFront buf bodies).map fun b =>
      { r with body_buffers := r.body_buffers.set r.current_buffer b }

/-- `SimulationResources::update_simulation_state`: unconditionally overwrite
the uniform block (the data always has exactly the uniform's size). -/
def update_simulation_state (r : SimulationResources) (simulation_state : SimulationState) :
    SimulationResources :=
  { r with simulation_state_buffer := simulation_state }

/-- `SimulationResources::swap_buffers`: `current_buffer = 1 - current_buffer`. -/
def swap_buffers (r : SimulationResources) : SimulationResources :=
  { r with current_buffer := 1 - r.current_buffer }

end SimulationResources

/-! ## `src/rendering/renderer.rs`

Host-visible renderer state.  Window, surface, device, queue and the pipeline
objects of `RenderConfig` are external GPU handles with no host-visible
simulation state and are omitted; `Instant`s are modelled as rational
timestamps in seconds. -/

structure Renderer where
  simulation_resources : SimulationResources
  last_update : F32
  simulation_state : SimulationState
  simulation_manager : SimulationManager
  camera : Camera
  show_info : Bool
  simulation_changed : Bool

namespace Renderer

/-- `Renderer::update`, executed at wall time `now`:

1. `dt = now.duration_since(last_update)` (saturating at zero), clamped with
   `dt.min(0.016)` and stored into `simulation_state.delta_time`;
2. if `simulation_changed`: refresh the view matrix from the manager, fetch
   the manager's bodies, push them into the current GPU buffer, clear the
   flag;
3. unconditionally push the uniform block.

`none` models the panic/validation failure paths of step 2. -/
def update (ops : RealOps) (r : Renderer) (now : F32) : Option Renderer :=
  let clamped_dt := min (max (now - r.last_update) 0) 0.016
  let r1 : Renderer :=
    { r with last_update := now,
             simulation_state := { r.simulation_state with delta_time := clamped_dt } }
  if r1.simulation_changed then
    match SimulationManager.update_simulation_state ops r1.simulation_manager
        r1.simulation_state with
    | none => none
    | some st =>
      match r1.simulation_resources.update_bodies r1.simulation_manager.get_bodies with
      | none => none
      | some res =>
        let r2 : Renderer :=
          { r1 with simulation_state := st,
                    simulation_resources := res,
                    simulation_changed := false }
        some { r2 with simulation_resources :=
                 r2.simulation_resources.update_simulation_state r2.simulation_state }
  else
    some { r1 with simulation_resources :=
             r1.simulation_resources.update_simulation_state r1.simulation_state }

/-- `Renderer::render`: run `update`, record the compute and render passes
against the bind group at `current_buffer` (GPU-side work, no host-visible
state change), print and clear `show_info`, present, then swap the ping-pong
index. -/
def render (ops : RealOps) (r : Renderer) (now : F32) : Option Renderer :=
  (update ops r now).map fun r1 =>
    { r1 with show_info := false,
              simulation_resources := r1.simulation_resources.swap_buffers }

/-- A sequence of consecutive `render` calls at the given wall times. -/
def renderFrames (ops : RealOps) (r : Renderer) : List F32 → Option Renderer
  | [] => some r
  | t :: ts => (render ops r t).bind fun r1 => renderFrames ops r1 ts

/-- `Renderer::next_simulation`: forward to the manager and raise the
`simulation_changed` / `show_info` flags on success. -/
def next_simulation (r : Renderer) (rng : Rng) : Option Renderer :=
  (SimulationManager.next_simulation r.simulation_manager rng).map fun mb =>
    if mb.2 then
      { r with simulation_manager := mb.1, simulation_changed := true, show_info := true }
    else { r with simulation_manager := mb.1 }

end Renderer

/-! ## Concrete sample states (used by the witness theorems) -/

/-- A concrete instantiation of the abstract real-valued operations. -/
def oracleOps : RealOps :=
  { cos := fun _ => 0,
    sin := fun _ => 0,
    sqrt := fun _ => 0,
    powf := fun _ _ => 0,
    hsl_to_rgb := fun _ _ _ => (0, 0, 0),
    look_at_rh := fun _ _ _ => [] }

/-- A concrete random oracle. -/
def oracleRng : Rng := fun _ => 0

/-- A concrete uniform-block value. -/
def sampleState : SimulationState :=
  { delta_time := 0.001, view_matrix := [], projection_matrix := [] }

/-- The manager state produced by `SimulationManager::new` under the sample
oracles. -/
def sampleManager : SimulationManager :=
  SimulationManager.new oracleOps oracleRng

/-- A concrete renderer state with no pending scenario switch. -/
def sampleRenderer : Renderer :=
  { simulation_resources := SimulationResources.new sampleManager.get_bodies sampleState,
    last_update := 0,
    simulation_state := sampleState,
    simulation_manager := sampleManager,
    camera := Camera.new 100,
    show_info := true,
    simulation_changed := false }

/-- A deterministic stub scenario used to build multi-scenario manager states. -/
def stubSim : Simulation :=
  { name := "Stub",
    description := "Deterministic stub scenario",
    initialize_bodies := fun count _ => List.replicate count nullBody,
    camera_position := (0, 0, 0),
    camera_target := (0, 0, 0) }

/-- A manager state with two scenarios, sitting on the first one. -/
def pairManager : SimulationManager :=
  { simulations := [stubSim, EarthMoonSimulation.sim],
    current_simulation_index := 0,
    bodies := [] }

/-- `pairManager` after a successful `next_simulation`. -/
def pairManagerNext : SimulationManager :=
  { simulations := [stubSim, EarthMoonSimulation.sim],
    current_simulation_index := 1,
    bodies := EarthMoonSimulation.sim.initialize_bodies NUM_BODIES oracleRng }

/-- A concrete double-buffer state whose buffers hold `NUM_BODIES` bodies. -/
def resTwo : SimulationResources :=
  SimulationResources.new (List.replicate NUM_BODIES nullBody) sampleState

/-! ## Helper lemmas -/

theorem TAU_pos : (0 : F32) < TAU := by norm_num [TAU]

theorem clampF_mem (x lo hi : F32) (h : lo ≤ hi) :
    lo ≤ clampF x lo hi ∧ clampF x lo hi ≤ hi := by
  unfold clampF
  split_ifs with h1 h2 <;> constructor <;> linarith

theorem clampF_of_mem (x lo hi : F32) (h1 : lo ≤ x) (h2 : x ≤ hi) :
    clampF x lo hi = x := by
  unfold clampF
  rw [if_neg (not_lt.mpr h1), if_neg (not_lt.mpr h2)]

theorem clampF_eq_hi (x lo hi : F32) (hlo : lo ≤ hi) (h : hi ≤ x) :
    clampF x lo hi = hi := by
  unfold clampF
  split_ifs <;> linarith

theorem clampF_eq_lo (x lo hi : F32) (hlo : lo ≤ hi) (h : x ≤ lo) :
    clampF x lo hi = lo := by
  unfold clampF
  split_ifs <;> linarith

theorem wrapDown_of_le (r : F32) (h : r ≤ TAU) : wrapDown r = r := by
  rw [wrapDown, dif_neg (not_lt.mpr h)]

theorem wrapUp_of_nonneg (r : F32) (h : 0 ≤ r) : wrapUp r = r := by
  rw [wrapUp, dif_neg (not_lt.mpr h)]

theorem wrapDown_le (r : F32) : wrapDown r ≤ TAU := by
  induction r using wrapDown.induct with
  | case1 r h ih =>
    rw [wrapDown, dif_pos h]
    exact ih
  | case2 r h =>
    rw [wrapDown, dif_neg h]
    exact le_of_not_lt h

theorem wrapUp_nonneg (r : F32) : 0 ≤ wrapUp r := by
  induction r using wrapUp.induct with
  | case1 r h ih =>
    rw [wrapUp, dif_pos h]
    exact ih
  | case2 r h =>
    rw [wrapUp, dif_neg h]
    exact le_of_not_lt h

theorem wrapUp_le (r : F32) (hr : r ≤ TAU) : wrapUp r ≤ TAU := by
  induction r using wrapUp.induct with
  | case1 r h ih =>
    rw [wrapUp, dif_pos h]
    exact ih (by linarith)
  | case2 r h =>
    rw [wrapUp, dif_neg h]
    exact hr

/-- Every reachable camera state has its zoom factor inside `[0.1, 10.0]`. -/
theorem camera_zoom_bounds {c : Camera} (h : CameraReachable c) :
    0.1 ≤ c.zoom ∧ c.zoom ≤ 10 := by
  induction h with
  | new base_height => norm_num [Camera.new]
  | pan ops c dx dy _ ih => simpa [Camera.pan] using ih
  | zoomBy c delta _ ih =>
    simpa [Camera.zoomBy] using clampF_mem _ 0.1 10 (by norm_num)
  | rotate c delta _ ih => simpa [Camera.rotate] using ih
  | press c position ctrl shift _ ih => simpa [Camera.handle_mouse_press] using ih
  | release c _ ih => simpa [Camera.handle_mouse_release] using ih
  | move ops c position _ ih =>
    unfold Camera.handle_mouse_move
    split_ifs <;> simpa [Camera.pan, Camera.rotate] using ih
  | wheel c delta _ ih =>
    simpa [Camera.handle_mouse_wheel, Camera.zoomBy] using clampF_mem _ 0.1 10 (by norm_num)
  | key c ctrl shift _ ih => simpa [Camera.handle_key_state] using ih

theorem GalaxySimulation.discBodies_length (ops : RealOps) (n : Nat) (rng : Rng) :
    (GalaxySimulation.discBodies ops n rng).length = n := by
  induction n generalizing rng with
  | zero => rfl
  | succ n ih => simp [GalaxySimulation.discBodies, ih]

theorem galaxy_initialize_bodies_length (ops : RealOps) (count : Nat) (rng : Rng) :
    (GalaxySimulation.initialize_bodies ops count rng).length = max count 1 := by
  simp only [GalaxySimulation.initialize_bodies, List.length_cons,
    GalaxySimulation.discBodies_length]
  omega

theorem SolarSystemSimulation.asteroidBodies_length (ops : RealOps) (n : Nat) (rng : Rng) :
    (SolarSystemSimulation.asteroidBodies ops n rng).length = n := by
  induction n generalizing rng with
  | zero => rfl
  | succ n ih => simp [SolarSystemSimulation.asteroidBodies, ih]

theorem SolarSystemSimulation.coreBodies_length (ops : RealOps) :
    (SolarSystemSimulation.coreBodies ops).length = 10 := by
  simp [SolarSystemSimulation.coreBodies, SolarSystemSimulation.planets]

theorem solar_system_initialize_bodies_length (ops : RealOps) (count : Nat)
    (rng : Rng) :
    (SolarSystemSimulation.initialize_bodies ops count rng).length = max count 10 := by
  simp only [SolarSystemSimulation.initialize_bodies]
  by_cases h : (SolarSystemSimulation.coreBodies ops).length < count
  · rw [if_pos h]
    simp only [List.length_append, SolarSystemSimulation.asteroidBodies_length,
      SolarSystemSimulation.coreBodies_length] at h ⊢
    omega
  · rw [if_neg h]
    simp only [SolarSystemSimulation.coreBodies_length] at h ⊢
    omega

theorem earth_moon_initialize_bodies_length (count : Nat) :
    (EarthMoonSimulation.initialize_bodies count).length = max count 1 := by
  simp only [EarthMoonSimulation.initialize_bodies, EarthMoonSimulation.create_empty_bodies]
  by_cases h : [EarthMoonSimulation.create_sun].length < count
  · rw [if_pos h]
    simp at h ⊢
    omega
  · rw [if_neg h]
    simp at h ⊢
    omega

/-- `reinitialize_bodies` keeps the simulation list and the index. -/
theorem reinitialize_bodies_some {m m2 : SimulationManager} {rng : Rng}
    (h : SimulationManager.reinitialize_bodies m rng = some m2) :
    m2.simulations = m.simulations ∧
      m2.current_simulation_index = m.current_simulation_index := by
  unfold SimulationManager.reinitialize_bodies at h
  cases hg : m.simulations.get? m.current_simulation_index with
  | none => rw [hg] at h; simp at h
  | some s =>
    rw [hg] at h
    simp only [Option.map_some', Option.some_inj] at h
    subst h
    exact ⟨rfl, rfl⟩

/-- Core invariant: on every reachable manager state the simulation list is
non-empty and the active index is in bounds. -/
theorem manager_index_invariant {ops : RealOps} {m : SimulationManager}
    (h : ManagerReachable ops m) :
    m.current_simulation_index < m.simulations.length ∧ m.simulations.length ≠ 0 := by
  induction h with
  | new rng =>
    have h1 : (SimulationManager.new ops rng).simulations.length = 1 := rfl
    have h2 : (SimulationManager.new ops rng).current_simulation_index = 0 := rfl
    rw [h1, h2]
    omega
  | next m m2 b rng _ heq ih =>
    obtain ⟨ih1, ih2⟩ := ih
    unfold SimulationManager.next_simulation at heq
    rw [if_neg ih2] at heq
    by_cases hc : m.current_simulation_index < m.simulations.length - 1
    · rw [if_pos hc] at heq
      cases hre : SimulationManager.reinitialize_bodies
          { m with current_simulation_index := m.current_simulation_index + 1 } rng with
      | none => rw [hre] at heq; simp at heq
      | some m3 =>
        rw [hre] at heq
        simp only [Option.map_some', Option.some_inj, Prod.mk.injEq] at heq
        have hs : m3.simulations = m.simulations := (reinitialize_bodies_some hre).1
        have hi : m3.current_simulation_index = m.current_simulation_index + 1 :=
          (reinitialize_bodies_some hre).2
        rw [← heq.1, hs, hi]
        omega
    · rw [if_neg hc] at heq
      simp only [Option.some_inj, Prod.mk.injEq] at heq
      rw [← heq.1]
      exact ⟨ih1, ih2⟩
  | previous m m2 b rng _ heq ih =>
    obtain ⟨ih1, ih2⟩ := ih
    unfold SimulationManager.previous_simulation at heq
    by_cases hc : 0 < m.current_simulation_index
    · rw [if_pos hc] at heq
      cases hre : SimulationManager.reinitialize_bodies
          { m with current_simulation_index := m.current_simulation_index - 1 } rng with
      | none => rw [hre] at heq; simp at heq
      | some m3 =>
        rw [hre] at heq
        simp only [Option.map_some', Option.some_inj, Prod.mk.injEq] at heq
        have hs : m3.simulations = m.simulations := (reinitialize_bodies_some hre).1
        have hi : m3.current_simulation_index = m.current_simulation_index - 1 :=
          (reinitialize_bodies_some hre).2
        rw [← heq.1, hs, hi]
        omega
    · rw [if_neg hc] at heq
      simp only [Option.some_inj, Prod.mk.injEq] at heq
      rw [← heq.1]
      exact ⟨ih1, ih2⟩
  | switch m m2 i b rng _ heq ih =>
    obtain ⟨ih1, ih2⟩ := ih
    unfold SimulationManager.switch_to_simulation at heq
    by_cases hc : i < m.simulations.length
    · rw [if_pos hc] at heq
      cases hre : SimulationManager.reinitialize_bodies
          { m with current_simulation_index := i } rng with
      | none => rw [hre] at heq; simp at heq
      | some m3 =>
        rw [hre] at heq
        simp only [Option.map_some', Option.some_inj, Prod.mk.injEq] at heq
        have hs : m3.simulations = m.simulations := (reinitialize_bodies_some hre).1
        have hi : m3.current_simulation_index = i := (reinitialize_bodies_some hre).2
        rw [← heq.1, hs, hi]
        omega
    · rw [if_neg hc] at heq
      simp only [Option.some_inj, Prod.mk.injEq] at heq
      rw [← heq.1]
      exact ⟨ih1, ih2⟩

/-- The manager's view-matrix refresh leaves the delta time untouched. -/
theorem update_simulation_state_delta {ops : RealOps} {m : SimulationManager}
    {state st : SimulationState}
    (h : SimulationManager.update_simulation_state ops m state = some st) :
    st.delta_time = state.delta_time := by
  unfold SimulationManager.update_simulation_state at h
  cases hg : m.simulations.get? m.current_simulation_index with
  | none => rw [hg] at h; simp at h
  | some s =>
    rw [hg] at h
    simp only [Option.map_some', Option.some_inj] at h
    rw [← h]

/-- `Renderer::update` with no pending scenario switch: the else branch,
written out. -/
theorem renderer_update_flag_false (ops : RealOps) (r : Renderer) (now : F32)
    (hflag : r.simulation_changed = false) :
    Renderer.update ops r now =
      some { r with
              last_update := now,
              simulation_state :=
                { r.simulation_state with
                    delta_time := min (max (now - r.last_update) 0) 0.016 },
              simulation_resources :=
                r.simulation_resources.update_simulation_state
                  { r.simulation_state with
                      delta_time := min (max (now - r.last_update) 0) 0.016 } } := by
  unfold Renderer.update
  dsimp only
  rw [hflag]
  rfl

/-- Whenever `Renderer::update` succeeds, the stored delta time is the clamped
elapsed time and the simulation manager is untouched. -/
theorem renderer_update_some {ops : RealOps} {r : Renderer} {now : F32} {r2 : Renderer}
    (h : Renderer.update ops r now = some r2) :
    r2.simulation_state.delta_time = min (max (now - r.last_update) 0) 0.016 ∧
      r2.simulation_manager = r.simulation_manager := by
  unfold Renderer.update at h
  dsimp only at h
  by_cases hflag : r.simulation_changed
  · rw [hflag] at h
    simp only [if_true] at h
    cases hst : SimulationManager.update_simulation_state ops r.simulation_manager
        { r.simulation_state with delta_time := min (max (now - r.last_update) 0) 0.016 } with
    | none => rw [hst] at h; simp at h
    | some st =>
      rw [hst] at h
      cases hres : SimulationResources.update_bodies r.simulation_resources
          (SimulationManager.get_bodies r.simulation_manager) with
      | none => rw [hres] at h; simp at h
      | some res =>
        rw [hres] at h
        simp only [Option.some_inj] at h
        rw [← h]
        refine ⟨?_, rfl⟩
        simpa using update_simulation_state_delta hst
  · rw [Bool.not_eq_true] at hflag
    rw [hflag] at h
    simp only [Bool.false_eq_true, if_false, Option.some_inj] at h
    rw [← h]
    exact ⟨rfl, rfl⟩

/-- `Renderer::render` with no pending scenario switch: the resulting state,
written out. -/
theorem render_flag_false (ops : RealOps) (r : Renderer) (now : F32)
    (hflag : r.simulation_changed = false) :
    Renderer.render ops r now =
      some { r with
              last_update := now,
              simulation_state :=
                { r.simulation_state with
                    delta_time := min (max (now - r.last_update) 0) 0.016 },
              simulation_resources :=
                (r.simulation_resources.update_simulation_state
                  { r.simulation_state with
                      delta_time := min (max (now - r.last_update) 0) 0.016 }).swap_buffers,
              show_info := false } := by
  unfold Renderer.render
  rw [renderer_update_flag_false ops r now hflag]
  rfl

theorem replicate_get?_of_lt {α : Type} (a : α) {n i : Nat} (h : i < n) :
    (List.replicate n a).get? i = some a := by
  induction n generalizing i with
  | zero => omega
  | succ n ih =>
    cases i with
    | zero => rfl
    | succ i => simpa [List.replicate] using ih (by omega)

/-! ## Claims -/

/-- C1 (counterexample): the claim "for every scenario provider and every
count `n ≥ 0`, `initialize_bodies(n)` returns exactly `n` bodies" is false at
the concrete input `SolarSystemSimulation::initialize_bodies(NUM_BODIES)`
(`NUM_BODIES = 2`, the count the running program actually uses): the provider
unconditionally emits its ten fixed bodies and never truncates. -/
theorem C1_counterexample :
    (SolarSystemSimulation.initialize_bodies oracleOps NUM_BODIES oracleRng).length
      ≠ NUM_BODIES := by
  rw [solar_system_initialize_bodies_length]
  decide

/-- C1 (amended): each provider returns `max n k` bodies, where `k` is the
provider's fixed core count (Galaxy 1, SolarSystem 10, EarthMoon 1): exactly
`n` bodies whenever `n ≥ k`, and the `k` core bodies (never fewer, never a
truncation) when `n < k`; the EarthMoon provider pads every slot past its core
with the null (zero-mass, zero-radius, transparent) body. -/
theorem C1_provider_lengths (ops : RealOps) (rng : Rng) (n : Nat) :
    (GalaxySimulation.initialize_bodies ops n rng).length = max n 1 ∧
    (SolarSystemSimulation.initialize_bodies ops n rng).length = max n 10 ∧
    (EarthMoonSimulation.initialize_bodies n).length = max n 1 ∧
    (∀ i, 1 ≤ i → i < n →
      (EarthMoonSimulation.initialize_bodies n).get? i = some nullBody) := by
  refine ⟨galaxy_initialize_bodies_length ops n rng,
    solar_system_initialize_bodies_length ops n rng,
    earth_moon_initialize_bodies_length n, fun i h1 h2 => ?_⟩
  unfold EarthMoonSimulation.initialize_bodies EarthMoonSimulation.create_empty_bodies
  dsimp only
  have hn : 1 < n := lt_of_le_of_lt h1 h2
  rw [if_pos (by simpa using hn)]
  rw [List.get?_append_right (by simpa using h1)]
  exact replicate_get?_of_lt nullBody (by simp; omega)

/-- C1 (witness): the amended statement evaluated at `n = 12`. -/
theorem C1_witness :
    (GalaxySimulation.initialize_bodies oracleOps 12 oracleRng).length = max 12 1 ∧
    (SolarSystemSimulation.initialize_bodies oracleOps 12 oracleRng).length = max 12 10 ∧
    (EarthMoonSimulation.initialize_bodies 12).length = max 12 1 ∧
    (EarthMoonSimulation.initialize_bodies 12).get? 5 = some nullBody := by
  have H := C1_provider_lengths oracleOps oracleRng 12
  exact ⟨H.1, H.2.1, H.2.2.1, H.2.2.2 5 (by norm_num) (by norm_num)⟩

/-- C2 (counterexample): the claim "`update_bodies` rejects a body array whose
length differs from `NUM_BODIES`" is false at the concrete input
`update_bodies(replicate (NUM_BODIES - 1) nullBody)` on a freshly constructed
resource set: the call is accepted (returns successfully) although the array
is one body short. -/
theorem C2_counterexample :
    (List.replicate (NUM_BODIES - 1) nullBody).length ≠ NUM_BODIES ∧
    (resTwo.update_bodies (List.replicate (NUM_BODIES - 1) nullBody)).isSome = true := by
  exact ⟨by decide, rfl⟩

/-- C2 (amended): `update_bodies` performs no length validation at all: any
body array that fits in the destination buffer — in particular any array
shorter than `NUM_BODIES` — is accepted silently and overwrites the front of
the buffer at `current_buffer`, leaving the tail stale; only an array larger
than the buffer fails, and then only through the GPU API's generic bounds
validation, not a contract check. -/
theorem C2_no_length_validation (r : SimulationResources) (bodies buf : List Body)
    (hbuf : r.body_buffers.get? r.current_buffer = some buf)
    (hfit : bodies.length ≤ buf.length) :
    r.update_bodies bodies =
      some { r with body_buffers :=
               r.body_buffers.set r.current_buffer (bodies ++ buf.drop bodies.length) } := by
  unfold SimulationResources.update_bodies
  rw [hbuf]
  show (writeBufferFront buf bodies).map
      (fun b => { r with body_buffers := r.body_buffers.set r.current_buffer b }) = _
  unfold writeBufferFront
  rw [if_pos hfit]
  rfl

/-- C2 (witness): the amended statement evaluated on a fresh resource set and
an array of length `NUM_BODIES - 1`. -/
theorem C2_witness :
    resTwo.update_bodies (List.replicate (NUM_BODIES - 1) nullBody) =
      some { resTwo with body_buffers :=
               (resTwo.body_buffers.set resTwo.current_buffer
                 (List.replicate (NUM_BODIES - 1) nullBody ++
                   (List.replicate NUM_BODIES nullBody).drop
                     (List.replicate (NUM_BODIES - 1) nullBody).length)) } :=
  C2_no_length_validation resTwo (List.replicate (NUM_BODIES - 1) nullBody)
    (List.replicate NUM_BODIES nullBody) rfl (by decide)

/-- C3: starting from the freshly constructed double-buffer state
(`current_buffer = 0`), after `swap_buffers` has been applied `k` times the
index equals `k mod 2`; in particular it always stays in `{0, 1}` and each
swap flips it. -/
theorem C3_swap_parity (bodies : List Body) (st : SimulationState) (k : Nat) :
    (SimulationResources.swap_buffers^[k]
        (SimulationResources.new bodies st)).current_buffer = k % 2 := by
  induction k with
  | zero => rfl
  | succ k ih =>
    rw [Function.iterate_succ_apply']
    show 1 - (SimulationResources.swap_buffers^[k]
        (SimulationResources.new bodies st)).current_buffer = (k + 1) % 2
    rw [ih]
    omega

/-- C4: `switch_to_simulation` with an out-of-bounds index,
`next_simulation` at the last scenario, and `previous_simulation` at the first
scenario each return `false` and leave the whole manager state — index and
held body population included — unchanged. -/
theorem C4_boundary_noop (m : SimulationManager) (i : Nat) (rng : Rng) :
    (m.simulations.length ≤ i →
      SimulationManager.switch_to_simulation m i rng = some (m, false)) ∧
    (m.simulations.length ≠ 0 →
      m.current_simulation_index = m.simulations.length - 1 →
      SimulationManager.next_simulation m rng = some (m, false)) ∧
    (m.current_simulation_index = 0 →
      SimulationManager.previous_simulation m rng = some (m, false)) := by
  refine ⟨fun hofb => ?_, fun hne hlast => ?_, fun hfirst => ?_⟩
  · unfold SimulationManager.switch_to_simulation
    rw [if_neg (not_lt.mpr hofb)]
  · unfold SimulationManager.next_simulation
    rw [if_neg hne, if_neg (by omega)]
  · unfold SimulationManager.previous_simulation
    rw [if_neg (by omega)]

/-- C4 (witness): the boundary no-ops evaluated on the manager state built by
`SimulationManager::new` (one scenario, index 0) with the out-of-bounds
index 5. -/
theorem C4_witness :
    SimulationManager.switch_to_simulation sampleManager 5 oracleRng =
      some (sampleManager, false) ∧
    SimulationManager.next_simulation sampleManager oracleRng =
      some (sampleManager, false) ∧
    SimulationManager.previous_simulation sampleManager oracleRng =
      some (sampleManager, false) := by
  have H := C4_boundary_noop sampleManager 5 oracleRng
  exact ⟨H.1 (by decide), H.2.1 (by decide) (by decide), H.2.2 (by decide)⟩

/-- C5: whenever `next_simulation` succeeds (returns `true`), the immediately
following `previous_simulation` also succeeds, restores the previous active
scenario index, and replaces the held bodies with a fresh
`initialize_bodies(NUM_BODIES)` of the restored scenario (same provider, new
random stream — equivalent, not necessarily identical). -/
theorem C5_next_previous_roundtrip (m m2 : SimulationManager) (rng1 rng2 : Rng)
    (h : SimulationManager.next_simulation m rng1 = some (m2, true)) :
    (m.simulations.get? m.current_simulation_index).isSome = true ∧
    SimulationManager.previous_simulation m2 rng2 =
      (m.simulations.get? m.current_simulation_index).map
        (fun s => ({ m2 with
                      current_simulation_index := m.current_simulation_index,
                      bodies := s.initialize_bodies NUM_BODIES rng2 }, true)) := by
  unfold SimulationManager.next_simulation at h
  by_cases h0 : m.simulations.length = 0
  · rw [if_pos h0] at h
    exact absurd h (by simp)
  rw [if_neg h0] at h
  by_cases hc : m.current_simulation_index < m.simulations.length - 1
  · rw [if_pos hc] at h
    cases hre : SimulationManager.reinitialize_bodies
        { m with current_simulation_index := m.current_simulation_index + 1 } rng1 with
    | none => rw [hre] at h; simp at h
    | some m3 =>
      rw [hre] at h
      simp only [Option.map_some', Option.some_inj, Prod.mk.injEq] at h
      obtain ⟨hm3, -⟩ := h
      subst hm3
      have hs : m3.simulations = m.simulations := (reinitialize_bodies_some hre).1
      have hi : m3.current_simulation_index = m.current_simulation_index + 1 :=
        (reinitialize_bodies_some hre).2
      have hidx : m.current_simulation_index < m.simulations.length := by omega
      cases hg : m.simulations.get? m.current_simulation_index with
      | none =>
        have := List.get?_eq_none.mp hg
        omega
      | some s =>
        refine ⟨rfl, ?_⟩
        unfold SimulationManager.previous_simulation
        rw [if_pos (by omega : 0 < m3.current_simulation_index)]
        unfold SimulationManager.reinitialize_bodies
        dsimp only
        rw [hs, hi, Nat.add_sub_cancel, hg]
        simp only [Option.map_some']
  · rw [if_neg hc] at h
    simp only [Option.some_inj, Prod.mk.injEq] at h
    exact absurd h.2 (by simp)

/-- C5 (witness): a two-scenario manager on which `next_simulation` succeeds;
`previous_simulation` then restores index 0 and re-initialises the bodies from
the first provider. -/
theorem C5_witness :
    (pairManager.simulations.get? pairManager.current_simulation_index).isSome = true ∧
    SimulationManager.previous_simulation pairManagerNext oracleRng =
      (pairManager.simulations.get? pairManager.current_simulation_index).map
        (fun s => ({ pairManagerNext with
                      current_simulation_index :=
                        pairManager.current_simulation_index,
                      bodies := s.initialize_bodies NUM_BODIES oracleRng }, true)) :=
  C5_next_previous_roundtrip pairManager pairManagerNext oracleRng oracleRng rfl

/-- C6: on every reachable camera state, `zoom(0)` is the identity on the
whole camera state, and after any `zoom(delta)` call the zoom factor lies in
`[0.1, 10.0]`; large positive deltas saturate at exactly `10.0` and strongly
negative deltas at exactly `0.1`. -/
theorem C6_zoom_clamp (c : Camera) (h : CameraReachable c) :
    Camera.zoomBy c 0 = c ∧
    (∀ delta, 0.1 ≤ (Camera.zoomBy c delta).zoom ∧ (Camera.zoomBy c delta).zoom ≤ 10) ∧
    (∀ delta, 990 ≤ delta → (Camera.zoomBy c delta).zoom = 10) ∧
    (∀ delta, delta ≤ -10 → (Camera.zoomBy c delta).zoom = 0.1) := by
  obtain ⟨hlo, hhi⟩ := camera_zoom_bounds h
  refine ⟨?_, fun delta => ?_, fun delta hd => ?_, fun delta hd => ?_⟩
  · show { c with zoom := clampF (c.zoom * (1 + 0 * 0.1)) 0.1 10 } = c
    have e : c.zoom * (1 + (0 : F32) * 0.1) = c.zoom := by ring
    rw [e, clampF_of_mem _ _ _ hlo hhi]
  · show 0.1 ≤ clampF (c.zoom * (1 + delta * 0.1)) 0.1 10 ∧
      clampF (c.zoom * (1 + delta * 0.1)) 0.1 10 ≤ 10
    exact clampF_mem _ _ _ (by norm_num)
  · show clampF (c.zoom * (1 + delta * 0.1)) 0.1 10 = 10
    have hfac : (100 : F32) ≤ 1 + delta * 0.1 := by linarith
    have h1 : (0.1 : F32) * 100 ≤ c.zoom * (1 + delta * 0.1) :=
      mul_le_mul hlo hfac (by norm_num) (by linarith)
    have h2 : (0.1 : F32) * 100 = 10 := by norm_num
    exact clampF_eq_hi _ _ _ (by norm_num) (by linarith)
  · show clampF (c.zoom * (1 + delta * 0.1)) 0.1 10 = 0.1
    have hfac : 1 + delta * 0.1 ≤ (0 : F32) := by linarith
    have h1 : c.zoom * (1 + delta * 0.1) ≤ 0 :=
      mul_nonpos_iff.mpr (Or.inl ⟨by linarith, hfac⟩)
    exact clampF_eq_lo _ _ _ (by norm_num) (by linarith)

/-- C6 (witness): the zoom contract evaluated on the freshly constructed
camera at the deltas `0`, `2`, `1000` and `-50`. -/
theorem C6_witness :
    Camera.zoomBy (Camera.new 300) 0 = Camera.new 300 ∧
    (0.1 ≤ (Camera.zoomBy (Camera.new 300) 2).zoom ∧
      (Camera.zoomBy (Camera.new 300) 2).zoom ≤ 10) ∧
    (Camera.zoomBy (Camera.new 300) 1000).zoom = 10 ∧
    (Camera.zoomBy (Camera.new 300) (-50)).zoom = 0.1 := by
  have H := C6_zoom_clamp (Camera.new 300) (CameraReachable.new 300)
  exact ⟨H.1, H.2.1 2, H.2.2.1 1000 (by norm_num), H.2.2.2 (-50) (by norm_num)⟩

/-- C7 (counterexample): the claim "after every `rotate(delta)` the stored
angle lies in `[0, 2π)`, in particular never exactly `2π`" is false at the
concrete input `rotate(100 · TAU)` on a fresh camera: the wrap loop uses a
strict `> TAU` comparison, so an accumulated angle of exactly `TAU` (= the
`f32` value of `2π`) is left untouched. -/
theorem C7_counterexample :
    (Camera.rotate (Camera.new 300) (100 * TAU)).rotation = TAU := by
  show wrapUp (wrapDown ((Camera.new 300).rotation + 100 * TAU * 0.01)) = TAU
  have e : (Camera.new 300).rotation + 100 * TAU * 0.01 = TAU := by
    show (0 : F32) + 100 * TAU * 0.01 = TAU
    norm_num [TAU]
  rw [e, wrapDown_of_le TAU le_rfl, wrapUp_of_nonneg TAU TAU_pos.le]

/-- C7 (amended): after every `rotate(delta)` call the stored angle lies in
the closed interval `[0, 2π]`: it is never negative, never exceeds `2π`, but
the endpoint `2π` itself is reachable (see the counterexample). -/
theorem C7_rotation_range (c : Camera) (delta : F32) :
    0 ≤ (Camera.rotate c delta).rotation ∧ (Camera.rotate c delta).rotation ≤ TAU := by
  show 0 ≤ wrapUp (wrapDown (c.rotation + delta * 0.01)) ∧
    wrapUp (wrapDown (c.rotation + delta * 0.01)) ≤ TAU
  exact ⟨wrapUp_nonneg _, wrapUp_le _ (wrapDown_le _)⟩

/-- C8: whenever the per-frame `update` runs at wall time `now`, the uniform
block's `delta_time` is set to the elapsed time since the previous frame
clamped to at most `0.016` seconds; for a monotone clock (elapsed time
`≥ 0`) it equals `min(dt, 0.016)` exactly. -/
theorem C8_delta_time_clamp (ops : RealOps) (r : Renderer) (now : F32) :
    (Renderer.update ops r now).elim True
      (fun r2 => r2.simulation_state.delta_time =
          min (max (now - r.last_update) 0) 0.016 ∧
        r2.simulation_state.delta_time ≤ 0.016) ∧
    (0 ≤ now - r.last_update →
      (Renderer.update ops r now).elim True
        (fun r2 => r2.simulation_state.delta_time = min (now - r.last_update) 0.016)) := by
  constructor
  · cases hu : Renderer.update ops r now with
    | none => trivial
    | some r2 =>
      have H := renderer_update_some hu
      refine ⟨H.1, ?_⟩
      rw [H.1]
      exact min_le_right _ _
  · intro hdt
    cases hu : Renderer.update ops r now with
    | none => trivial
    | some r2 =>
      show r2.simulation_state.delta_time = min (now - r.last_update) 0.016
      rw [(renderer_update_some hu).1, max_eq_left hdt]

/-- C8 (witness): the delta-time clamp evaluated on the sample renderer at
wall time 1. -/
theorem C8_witness :
    (Renderer.update oracleOps sampleRenderer 1).elim True
      (fun r2 => r2.simulation_state.delta_time =
          min (max ((1 : F32) - sampleRenderer.last_update) 0) 0.016 ∧
        r2.simulation_state.delta_time ≤ 0.016) ∧
    (Renderer.update oracleOps sampleRenderer 1).elim True
      (fun r2 => r2.simulation_state.delta_time =
        min ((1 : F32) - sampleRenderer.last_update) 0.016) := by
  have H := C8_delta_time_clamp oracleOps sampleRenderer 1
  exact ⟨H.1, H.2 (by norm_num [sampleRenderer])⟩

/-- C9: across any sequence of consecutive `render` calls during which no
scenario switch is pending (`simulation_changed = false` at the start, and the
frame path never raises it), the manager's stored host-side body population is
left identical: the frame path never writes it. -/
theorem C9_frames_preserve_bodies (ops : RealOps) (r : Renderer) (nows : List F32)
    (hflag : r.simulation_changed = false) :
    (Renderer.renderFrames ops r nows).elim True
      (fun rk => rk.simulation_manager.bodies = r.simulation_manager.bodies ∧
        rk.simulation_changed = false) := by
  induction nows generalizing r with
  | nil => exact ⟨rfl, hflag⟩
  | cons t ts ih =>
    have hr := render_flag_false ops r t hflag
    show (Renderer.renderFrames ops r (t :: ts)).elim True _
    rw [Renderer.renderFrames, hr]
    exact ih _ hflag

/-- C9 (witness): three consecutive frames on the sample renderer (no pending
switch) leave the registry's body population identical. -/
theorem C9_witness :
    (Renderer.renderFrames oracleOps sampleRenderer [1, 2, 3]).elim True
      (fun rk => rk.simulation_manager.bodies = sampleRenderer.simulation_manager.bodies ∧
        rk.simulation_changed = false) :=
  C9_frames_preserve_bodies oracleOps sampleRenderer [1, 2, 3] rfl

/-- C10: on every manager state reachable from `SimulationManager::new`, the
active index is strictly below the length of the (non-empty) scenario list, so
the internal indexing of `get_current_simulation`, `reinitialize_bodies` and
`update_simulation_state` is in bounds and never panics. -/
theorem C10_registry_invariant (ops : RealOps) (m : SimulationManager)
    (h : ManagerReachable ops m) :
    m.current_simulation_index < m.simulations.length ∧
    m.simulations.length ≠ 0 ∧
    m.get_current_simulation.isSome = true ∧
    (∀ rng, (SimulationManager.reinitialize_bodies m rng).isSome = true) ∧
    (∀ st, (SimulationManager.update_simulation_state ops m st).isSome = true) := by
  obtain ⟨h1, h2⟩ := manager_index_invariant h
  have hg : (m.simulations.get? m.current_simulation_index).isSome = true := by
    cases hg2 : m.simulations.get? m.current_simulation_index with
    | none =>
      have := List.get?_eq_none.mp hg2
      omega
    | some s => rfl
  refine ⟨h1, h2, hg, fun rng => ?_, fun st => ?_⟩
  · unfold SimulationManager.reinitialize_bodies
    cases hg2 : m.simulations.get? m.current_simulation_index with
    | none => rw [hg2] at hg; simp at hg
    | some s => rfl
  · unfold SimulationManager.update_simulation_state
    cases hg2 : m.simulations.get? m.current_simulation_index with
    | none => rw [hg2] at hg; simp at hg
    | some s => rfl

/-- C10 (witness): the invariant evaluated on the state built by
`SimulationManager::new`. -/
theorem C10_witness :
    sampleManager.current_simulation_index < sampleManager.simulations.length ∧
    sampleManager.simulations.length ≠ 0 ∧
    sampleManager.get_current_simulation.isSome = true ∧
    (SimulationManager.reinitialize_bodies sampleManager oracleRng).isSome = true ∧
    (SimulationManager.update_simulation_state oracleOps sampleManager sampleState).isSome
      = true := by
  have H := C10_registry_invariant oracleOps sampleManager (ManagerReachable.new oracleRng)
  exact ⟨H.1, H.2.1, H.2.2.1, H.2.2.2.1 oracleRng, H.2.2.2.2 sampleState⟩

end WgpuPlayground
